import Mathlib

/-!
Verification of `sample-tip-dates-in-BEAUti-xml.py`.

The script is a one-shot text transformer: it reads a BEAUti XML file,
extracts a tree id, the dated-taxon section and the taxon list via three
regular expressions, optionally restricts the taxon list with a filter
file, and rewrites the file line by line, splicing per-taxon prior, logger
and operator fragments at three anchor lines.

The embedding below translates the script directly:
- text is `String` / `List Char`;
- the three regular expressions are embedded as deterministic scanners
  (each regex here is deterministic: the character class of every greedy
  run excludes the character that must follow it, so no backtracking can
  produce a different match than the maximal run);
- the numeric command-line parameters (`-p1`, `-p2`, `-po`, parsed by
  argparse as Python floats) are modelled by their decimal renderings
  (`str(...)` of the parsed float), because the script uses them only via
  `str(...)` interpolation into the generated XML;
- `os.path.abspath` is modelled as the identity: it never changes the
  final path component, which is all the extension check looks at;
- fallible steps return `Option`; the whole run returns a record with the
  bytes written to the output file, the fatal error (if any), and the
  ordered file-system effect trace (the output file is opened for writing
  by `argparse.FileType('w')` during argument parsing, before any
  validation of the input file).
-/

namespace TipDatePriors

/-- Python regex `\w` on the ASCII range: letters, digits, underscore. -/
def isWordChar (c : Char) : Bool := c.isAlphanum || c = '_'

/-- Python regex `\s` on the ASCII range. -/
def isSpaceChar (c : Char) : Bool :=
  c = ' ' || c = '\t' || c = '\n' || c = '\r' || c = '\x0b' || c = '\x0c'

/-- Character class `[\w:.-]` of the tree-id regex (source line 173). -/
def treeIdChar (c : Char) : Bool := isWordChar c || c = ':' || c = '.' || c = '-'

/-- Character class `[\w=.\-\s,]` of the date-section regex (source lines 182, 184). -/
def dateChar (c : Char) : Bool :=
  isWordChar c || c = '=' || c = '.' || c = '-' || isSpaceChar c || c = ','

/-- Character class `[\w\-]` of the taxon `findall` regex (source line 194). -/
def taxonChar (c : Char) : Bool := isWordChar c || c = '-'

/-- Strip a literal from the front of `s`, or fail. -/
def afterLiteral (lit s : List Char) : Option (List Char) :=
  if lit.isPrefixOf s then some (s.drop lit.length) else none

/-- Try to match `<tree id="([\w:.-]+)"` at the start of `s` (source line 173).
The greedy run `[\w:.-]+` is followed by `"`, a character outside the class,
so the match (if any) is the maximal nonempty class run followed by `"`. -/
def matchTreeAt (s : List Char) : Option String :=
  match afterLiteral ("<tree id=\"".data) s with
  | none => none
  | some rest =>
    let r := rest.takeWhile treeIdChar
    if r.isEmpty then none
    else
      match rest.drop r.length with
      | '"' :: _ => some (String.mk r)
      | _ => none

/-- `re.search` for the tree-id regex: leftmost starting position that matches. -/
def findTreeID : List Char → Option String
  | [] => none
  | c :: rest =>
    match matchTreeAt (c :: rest) with
    | some t => some t
    | none => findTreeID rest

/-- Time direction selected by the `--time` option (source lines 94-99). -/
inductive TimeDir
  | present
  | past
deriving DecidableEq

/-- The literal part of the date-section regex for each direction
(source lines 181-184: `present` searches the `date-backward` trait). -/
def dateLit : TimeDir → List Char
  | .present => ("traitname=\"date-backward\">").data
  | .past => ("traitname=\"date-forward\">").data

/-- Try to match `LIT\s*([\w=.\-\s,]*)<` at the start of `s`.
`\s` is contained in the capture class and `<` is outside it, so the group
is the maximal class run after the maximal whitespace run, and the match
requires a `<` right after it. -/
def matchDateAt (lit s : List Char) : Option (List Char) :=
  match afterLiteral lit s with
  | none => none
  | some rest =>
    let rest2 := rest.dropWhile isSpaceChar
    let r := rest2.takeWhile dateChar
    match rest2.drop r.length with
    | '<' :: _ => some r
    | _ => none

/-- `re.search` scan for the date-section regex. -/
def searchDateFrom (lit : List Char) : List Char → Option (List Char)
  | [] => none
  | c :: rest =>
    match matchDateAt lit (c :: rest) with
    | some g => some g
    | none => searchDateFrom lit rest

/-- Group 1 of the date-section search (source lines 180-184). -/
def findDateSection (dir : TimeDir) (s : List Char) : Option (List Char) :=
  searchDateFrom (dateLit dir) s

/-- `re.findall(r'([\w\-]*)=', dateSection)` (source line 194):
scan left to right; at each position the greedy class run can only be
followed by `=` if it is the maximal run (`=` is outside the class), and a
successful match consumes the run and the `=`. -/
def findAllTaxaAux : Nat → List Char → List String
  | 0, _ => []
  | _, [] => []
  | fuel + 1, c :: rest =>
    match (c :: rest).dropWhile taxonChar with
    | '=' :: tail => String.mk ((c :: rest).takeWhile taxonChar) :: findAllTaxaAux fuel tail
    | _ => findAllTaxaAux fuel rest

/-- Entry point of the scan; every scan step consumes at least one
character, so a fuel equal to the input length never runs out before the
input does. -/
def findAllTaxa (s : List Char) : List String := findAllTaxaAux s.length s

/-- Split a character list at every newline; `"a\nb".split('\n')` style
(always at least one piece, empty trailing piece for a trailing newline). -/
def splitNl : List Char → List (List Char)
  | [] => [[]]
  | c :: rest =>
    if c = '\n' then [] :: splitNl rest
    else
      match splitNl rest with
      | [] => [[c]]
      | l :: ls => (c :: l) :: ls

/-- Python `str.splitlines()` for text read in text mode (universal
newlines already translated to `'\n'`): like split on `'\n'` but without a
trailing empty piece, and `[]` for the empty string. -/
def splitlinesChars (s : List Char) : List (List Char) :=
  if s.isEmpty then []
  else
    let parts := splitNl s
    if parts.getLast? = some [] then parts.dropLast else parts

/-- `sequenceFile.read().splitlines()` on a filter file's contents (source line 200). -/
def pySplitlines (s : String) : List String := (splitlinesChars s.data).map String.mk

/-- Python's substring test `pat in s` on character lists. -/
def containsSubList (pat : List Char) : List Char → Bool
  | [] => pat.isEmpty
  | c :: rest => pat.isPrefixOf (c :: rest) || containsSubList pat rest

/-- Python's substring test `pat in s` on strings. -/
def containsSub (s pat : String) : Bool := containsSubList pat.data s.data

/-- The prior-distribution kinds accepted by the `--priorDist` option (source lines 60-64). -/
inductive Dist
  | exponential
  | poisson
  | logNormal
  | beta
  | gamma
  | inverseGamma
  | laplace
  | uniform
  | normal
  | oneOnX
deriving DecidableEq

/-- The parsed command-line arguments (source lines 41-104).  The float
parameters are carried as their `str(...)` renderings, since the script
only ever interpolates them into strings. -/
structure Args where
  inputFile : String
  outFile : String
  sequences : String
  priorDistribution : Dist
  parameter1 : String
  parameter2 : String
  parametero : String
  meanInRealSpace : Bool
  timeDirection : TimeDir
  estimateParameters : Bool
deriving DecidableEq

/-- `beastDistributionsDict` (source lines 107-115): map from distribution
kind to the BEAST element name; `poisson` has no entry (the dict literal
omits it, and the code only looks it up when the kind is not poisson). -/
def beastDistributionsDict : Dist → Option String
  | .exponential => some "Exponential"
  | .logNormal => some "LogNormal"
  | .gamma => some "Gamma"
  | .beta => some "Beta"
  | .inverseGamma => some "InverseGamma"
  | .laplace => some "LaplaceDistribution"
  | .normal => some "Normal"
  | .oneOnX => some "OneOnX"
  | .uniform => some "Uniform"
  | .poisson => none

/-- `parameterDict` (source lines 120-136): ordered parameter-name/value
pairs per distribution kind (Python dict literals iterate in insertion
order). -/
def parameterDict (a : Args) : Dist → List (String × String)
  | .exponential => [("mean", a.parameter1)]
  | .logNormal => [("M", a.parameter1), ("S", a.parameter2)]
  | .gamma => [("alpha", a.parameter1), ("beta", a.parameter2)]
  | .beta => [("alpha", a.parameter1), ("beta", a.parameter2)]
  | .inverseGamma => [("alpha", a.parameter1), ("beta", a.parameter2)]
  | .poisson => [("lambda", a.parameter1)]
  | .laplace => [("mu", a.parameter1), ("scale", a.parameter2)]
  | .oneOnX => [("offset", a.parametero)]
  | .normal => [("mean", a.parameter1), ("sigma", a.parameter2)]
  | .uniform => [("lower", a.parameter1), ("upper", a.parameter2)]

/-- Concatenation of a list of strings (the `+=` accumulation loops). -/
def concatStrings : List String → String
  | [] => ""
  | s :: rest => s ++ concatStrings rest

/-- `parameterLines` for one taxon (source lines 263-268). -/
def parameterLines (a : Args) (taxon : String) : String :=
  concatStrings ((parameterDict a a.priorDistribution).map (fun pv =>
    "\t\t    <parameter id=\"RealParameter." ++ pv.1 ++ "." ++ taxon ++
    "\" estimate=\"false\" name=\"" ++ pv.1 ++ "\">" ++ pv.2 ++ "</parameter>\n"))

/-- `distributionSection` for one taxon (source lines 271-280): the
generic template for every kind except poisson, which has its own block
with a hard-coded `offset="1.0"`. -/
def distributionSection (a : Args) (taxon : String) : String :=
  if a.priorDistribution ≠ Dist.poisson then
    let nm := (beastDistributionsDict a.priorDistribution).getD ""
    "\t\t<" ++ nm ++ " id=\"" ++ nm ++ "." ++ taxon ++ "\" name=\"distr\" offset=\"" ++
      a.parametero ++ "\">\n" ++ parameterLines a taxon ++ "\t\t</" ++ nm ++ ">\n"
  else
    "\t\t<distr id=\"Poisson." ++ taxon ++
      "\" spec=\"beast.math.distributions.Poisson\" offset=\"1.0\">\n" ++
      parameterLines a taxon ++ "\t\t</distr>\n"

/-- The per-taxon prior block (source lines 283-288).  Note two oddities
preserved from the source: no space between `.prior"` and `spec=` (adjacent
string literals in the source), and a leading space inside the taxonset id
(`id=" tip.` at source line 286). -/
def priorFragment (a : Args) (treeID taxon : String) : String :=
  "\t    <distribution id=\"tip." ++ taxon ++ ".prior\"" ++
    "spec=\"beast.math.distributions.MRCAPrior\" " ++
    "tipsonly=\"true\" tree=\"@" ++ treeID ++ "\">\n" ++
    "\t\t<taxonset id=\" tip." ++ taxon ++ "\" spec=\"TaxonSet\">\n" ++
    "\t\t    <taxon id=\"" ++ taxon ++ "\" spec=\"Taxon\"/>\n\t\t</taxonset>\n" ++
    distributionSection a taxon ++ "\t    </distribution>\n"

/-- The per-taxon logger line (source line 297). -/
def loggerFragment (taxon : String) : String :=
  "\t<log idref=\"@tip." ++ taxon ++ ".prior\"/>\n"

/-- The per-taxon operator block (source lines 304-309). -/
def operatorFragment (treeID taxon : String) : String :=
  "<operator id=\"TipDatesRandomWalker." ++ taxon ++ "\"\nwindowSize=\"1\"\n" ++
    "spec=\"TipDatesRandomWalker\"\n" ++
    "taxonset=\"@tip." ++ taxon ++ "\"\ntree=\"@" ++ treeID ++
    "\"\nweight=\"1.0\"/>\n"

/-- Anchor substring of the compound-prior line (source line 257). -/
def priorAnchor : String := "<distribution id=\"prior\" spec=\"util.CompoundDistribution\">"

/-- Anchor substring of the trace-logger line (source line 295). -/
def loggerAnchor : String := "<logger id=\"tracelog\""

/-- Anchor substring of the run-closing line (source line 301). -/
def runAnchor : String := "</run>"

/-- One iteration of the splicing loop (source lines 245-310): the value of
the loop variable `line` just before it is written. -/
def processLine (a : Args) (treeID : String) (taxonList : List String) (line : String) :
    String :=
  if containsSub line priorAnchor then
    line ++ "\n" ++ concatStrings (taxonList.map (priorFragment a treeID))
  else if containsSub line loggerAnchor then
    line ++ "\n" ++ concatStrings (taxonList.map loggerFragment)
  else if containsSub line runAnchor then
    concatStrings (taxonList.map (operatorFragment treeID)) ++ line
  else
    line

/-- The bytes `args.outFile.write(line + "\n")` emits for one source line
(source line 313). -/
def writtenChunk (a : Args) (treeID : String) (taxonList : List String) (line : String) :
    String :=
  processLine a treeID taxonList line ++ "\n"

/-- The whole rewriting pass (source lines 243-313): split the input on
newlines and write every (possibly expanded) line followed by a newline. -/
def outputString (a : Args) (treeID : String) (taxonList : List String) (xml : String) :
    String :=
  concatStrings ((splitNl xml.data).map (fun l => writtenChunk a treeID taxonList (String.mk l)))

/-- Index of the last character satisfying `p` (Python `str.rfind`). -/
def rfindIdxAux (p : Char → Bool) : List Char → Nat → Option Nat
  | [], _ => none
  | c :: rest, i =>
    match rfindIdxAux p rest (i + 1) with
    | some j => some j
    | none => if p c then some i else none

/-- Index of the last character satisfying `p`, or `none`. -/
def rfindIdx (p : Char → Bool) (s : List Char) : Option Nat := rfindIdxAux p s 0

/-- The final path component (everything after the last `/`). -/
def basename (s : List Char) : List Char :=
  match rfindIdx (fun c => c = '/') s with
  | none => s
  | some i => s.drop (i + 1)

/-- The extension as computed by `os.path.splitext`: the suffix starting at
the last dot of the final component, provided at least one non-dot
character precedes that dot within the component. -/
def splitextExt (s : List Char) : List Char :=
  let b := basename s
  match rfindIdx (fun c => c = '.') b with
  | none => []
  | some dotIdx =>
    if (b.take dotIdx).any (fun c => c != '.') then b.drop dotIdx else []

/-- The extension check `os.path.splitext(path)[1].lower() == '.xml'`
(source line 155). -/
def hasXmlExt (p : String) : Bool :=
  ((splitextExt p.data).map Char.toLower) == (".xml".data)

/-- The fatal error kinds of the script (source lines 155-211). -/
inductive FatalErr
  | badExtension
  | inputUnreadable
  | treeIdNotFound
  | dateSectionNotFound
  | filterUnreadable
  | filterUnknownIds
deriving DecidableEq, Fintype

/-- The diagnostic text of each fatal branch, byte for byte (adjacent
Python string literals concatenated; the bad-extension text is the message
of the uncaught `Exception`, surfaced in the interpreter traceback). -/
def errMessage : FatalErr → String
  | .badExtension => "Not a .xml file."
  | .inputUnreadable =>
      "Input file not found. Please check the path/filename and try again."
  | .treeIdNotFound =>
      "ERROR!\nFailed to find tree id in BEAUti .xml file.\nPlease check if .xml file was generated correctly."
  | .dateSectionNotFound =>
      "ERROR!\nCould not find any dated sequences in BEAUti .xml file.\nPlease check if.BEAUti .xml file was generated correctly.\nPossible causes:\n - Tip dates were not added in BEAUti.\n - Dates were specified as \"before the present\" or \"since some time in the past\" in the .XML file, but a different direction argument was provided as an input argument to the script."
  | .filterUnreadable =>
      "Failed to open input sequence file. Please check the path/filename and try again."
  | .filterUnknownIds =>
      "Provided sequence file contained sequence id\x27s which are not present in the BEAUti .xml file. Please try again."

/-- The process exit status of each fatal branch: the bad-extension branch
raises an uncaught `Exception` (Python exits with status 1); every other
fatal branch calls `sys.exit()` with no argument, which exits with
status 0. -/
def errExitCode : FatalErr → Nat
  | .badExtension => 1
  | _ => 0

/-- File-system effects of one run, in program order. -/
inductive Effect
  | openOutputForWrite
  | readInput
  | readFilter
  | writeOutput
  | fatalExit (e : FatalErr)
  | exitZero
deriving DecidableEq

/-- The files the script can touch: the input XML and the optional
sequence-filter file (`none` models an unreadable/missing file). -/
structure FS where
  input : Option String
  filter : Option String
deriving DecidableEq

/-- The observable outcome of one run: the bytes written to the output
file, the fatal error if one occurred, and the ordered effect trace. -/
structure RunResult where
  written : String
  err : Option FatalErr
  trace : List Effect
deriving DecidableEq

/-- Filter-file stage (source lines 197-211) and the final write: the
argument is the filter file's contents (`none` = unreadable).  If every
filter identifier is contained in the extracted taxon list, the filter
list itself (in the file's line order) becomes the taxon list used for
output generation. -/
def runFiltered (a : Args) (tid : String) (taxa : List String) (xml : String) :
    Option String → RunResult
  | none =>
    ⟨"", some FatalErr.filterUnreadable,
      [Effect.openOutputForWrite, Effect.readInput, Effect.readFilter,
        Effect.fatalExit FatalErr.filterUnreadable]⟩
  | some fc =>
    if (pySplitlines fc).all (fun s => taxa.contains s) then
      ⟨outputString a tid (pySplitlines fc) xml, none,
        [Effect.openOutputForWrite, Effect.readInput, Effect.readFilter,
          Effect.writeOutput, Effect.exitZero]⟩
    else
      ⟨"", some FatalErr.filterUnknownIds,
        [Effect.openOutputForWrite, Effect.readInput, Effect.readFilter,
          Effect.fatalExit FatalErr.filterUnknownIds]⟩

/-- Stage after the date section has been found: apply the optional
sequence filter (`if args.sequences:` truthiness, source line 197), then
generate the output. -/
def runWithSect (a : Args) (fs : FS) (xml tid : String) (sect : List Char) : RunResult :=
  if a.sequences = "" then
    ⟨outputString a tid (findAllTaxa sect) xml, none,
      [Effect.openOutputForWrite, Effect.readInput, Effect.writeOutput, Effect.exitZero]⟩
  else
    runFiltered a tid (findAllTaxa sect) xml fs.filter

/-- Stage after the tree id has been found: the argument is the result of
the date-section search (source lines 180-191). -/
def runWithTree (a : Args) (fs : FS) (xml tid : String) : Option (List Char) → RunResult
  | none =>
    ⟨"", some FatalErr.dateSectionNotFound,
      [Effect.openOutputForWrite, Effect.readInput,
        Effect.fatalExit FatalErr.dateSectionNotFound]⟩
  | some sect => runWithSect a fs xml tid sect

/-- Stage after the input has been read: the argument is the result of the
tree-id search (source lines 172-177). -/
def runTreeStage (a : Args) (fs : FS) (xml : String) : Option String → RunResult
  | none =>
    ⟨"", some FatalErr.treeIdNotFound,
      [Effect.openOutputForWrite, Effect.readInput,
        Effect.fatalExit FatalErr.treeIdNotFound]⟩
  | some tid => runWithTree a fs xml tid (findDateSection a.timeDirection xml.data)

/-- Input-reading stage (source lines 164-169): the argument is the input
file's contents (`none` = unreadable). -/
def runInputStage (a : Args) (fs : FS) : Option String → RunResult
  | none =>
    ⟨"", some FatalErr.inputUnreadable,
      [Effect.openOutputForWrite, Effect.readInput,
        Effect.fatalExit FatalErr.inputUnreadable]⟩
  | some xml => runTreeStage a fs xml (findTreeID xml.data)

/-- The whole program (source lines 104-333), as a function of the parsed
arguments and the file system.  `argparse.FileType('w')` opens (creates or
truncates) the output file while the arguments are parsed, before any
validation, hence the leading `openOutputForWrite` effect on every path.
All fatal branches happen before the splicing loop, so they write
nothing. -/
def run (a : Args) (fs : FS) : RunResult :=
  if hasXmlExt a.inputFile then runInputStage a fs fs.input
  else
    ⟨"", some FatalErr.badExtension,
      [Effect.openOutputForWrite, Effect.fatalExit FatalErr.badExtension]⟩

/-- The argparse defaults (source lines 48-103), with the float defaults
rendered as Python `str(...)` does. -/
def defaultArgs : Args where
  inputFile := "beauti.xml"
  outFile := "updated-beati.xml"
  sequences := ""
  priorDistribution := Dist.exponential
  parameter1 := "1.0"
  parameter2 := "2.0"
  parametero := "0.0"
  meanInRealSpace := false
  timeDirection := TimeDir.present
  estimateParameters := false

/-! Helper lemmas. -/

theorem strData_append (x y : String) : (x ++ y).data = x.data ++ y.data := by
  cases x
  cases y
  rfl

theorem strExt {x y : String} (h : x.data = y.data) : x = y := by
  cases x
  cases y
  cases h
  rfl

/-- Concatenate chunks, each terminated by a newline: the byte stream the
rewriting loop produces when every line passes through unchanged. -/
def joinNl : List (List Char) → List Char
  | [] => []
  | l :: ls => l ++ '\n' :: joinNl ls

theorem joinNl_splitNl (s : List Char) : joinNl (splitNl s) = s ++ ['\n'] := by
  induction s with
  | nil => rfl
  | cons c rest ih =>
    by_cases hc : c = '\n'
    · subst hc
      simp [splitNl, joinNl, ih]
    · cases hs : splitNl rest with
      | nil =>
        rw [hs] at ih
        simp [joinNl] at ih
      | cons l ls =>
        rw [hs] at ih
        simp only [joinNl] at ih
        simp only [splitNl, hc, if_false, hs, joinNl]
        simp [ih]

theorem data_concat_chunks (ll : List (List Char)) :
    (concatStrings (ll.map (fun l => String.mk l ++ "\n"))).data = joinNl ll := by
  induction ll with
  | nil => rfl
  | cons l ls ih =>
    simp only [List.map_cons, concatStrings, joinNl, strData_append, ih]
    simp

/-- Case analysis on one whole run: the very first effect is always the
opening of the output file for writing, and every fatal outcome writes
nothing, ends in its fatal exit, and never reaches the output-writing
stage. -/
theorem run_cases (a : Args) (fs : FS) :
    ((run a fs).trace.head? = some Effect.openOutputForWrite) ∧
    ((run a fs).err = none ∨
      ((run a fs).written = "" ∧ ∃ e, (run a fs).err = some e ∧
        (run a fs).trace.getLast? = some (Effect.fatalExit e) ∧
        Effect.writeOutput ∉ (run a fs).trace)) := by
  unfold run runInputStage runTreeStage runWithTree runWithSect runFiltered
  repeat' split
  all_goals refine ⟨rfl, ?_⟩
  all_goals first
    | exact Or.inl rfl
    | exact Or.inr ⟨rfl, _, rfl, rfl, by decide⟩

/-! Claim C1. -/

/-- C1: for every line of the input, the byte chunk the rewriter writes for
that line splices the generated content into the anchor's own chunk, before
the trailing newline the writer emits: a line containing the compound-prior
anchor gets the concatenated per-taxon prior fragments appended after the
line's own text (the code inserts one newline between the two), a line
containing the trace-logger anchor (and not the compound-prior anchor, the
checks being an if/elif chain) likewise gets the concatenated logger
fragments appended, and a line containing the run-closing anchor (and
neither earlier anchor) gets the concatenated operator fragments prepended
before the line's own text. -/
theorem claim_C1 (a : Args) (tid : String) (txl : List String) (line : String) :
    (containsSub line priorAnchor = true →
      writtenChunk a tid txl line =
        line ++ "\n" ++ concatStrings (txl.map (priorFragment a tid)) ++ "\n") ∧
    (containsSub line priorAnchor = false → containsSub line loggerAnchor = true →
      writtenChunk a tid txl line =
        line ++ "\n" ++ concatStrings (txl.map loggerFragment) ++ "\n") ∧
    (containsSub line priorAnchor = false → containsSub line loggerAnchor = false →
      containsSub line runAnchor = true →
      writtenChunk a tid txl line =
        concatStrings (txl.map (operatorFragment tid)) ++ line ++ "\n") := by
  refine ⟨fun h1 => ?_, fun h1 h2 => ?_, fun h1 h2 h3 => ?_⟩
  · simp [writtenChunk, processLine, h1]
  · simp [writtenChunk, processLine, h1, h2]
  · simp [writtenChunk, processLine, h1, h2, h3]

/-- Concrete anchor lines used to instantiate `claim_C1`. -/
def cLine1p : String := "    <distribution id=\"prior\" spec=\"util.CompoundDistribution\">"

/-- Concrete trace-logger anchor line. -/
def cLine1l : String := "    <logger id=\"tracelog\" fileName=\"trace.log\" logEvery=\"1000\">"

/-- Concrete run-closing anchor line. -/
def cLine1r : String := "</run>"

theorem claim_C1_witness :
    (writtenChunk defaultArgs "T" ["A"] cLine1p =
      cLine1p ++ "\n" ++ concatStrings (["A"].map (priorFragment defaultArgs "T")) ++ "\n") ∧
    (writtenChunk defaultArgs "T" ["A"] cLine1l =
      cLine1l ++ "\n" ++ concatStrings (["A"].map loggerFragment) ++ "\n") ∧
    (writtenChunk defaultArgs "T" ["A"] cLine1r =
      concatStrings (["A"].map (operatorFragment "T")) ++ cLine1r ++ "\n") :=
  ⟨(claim_C1 defaultArgs "T" ["A"] cLine1p).1 (by decide),
   (claim_C1 defaultArgs "T" ["A"] cLine1l).2.1 (by decide) (by decide),
   (claim_C1 defaultArgs "T" ["A"] cLine1r).2.2 (by decide) (by decide) (by decide)⟩

/-! Claim C2. -/

/-- C2: for every configuration and taxon, if the distribution kind is
poisson the generated inner distribution block carries the literal
`offset="1.0"` and is unchanged under any change of the configured offset
parameter; for every other kind the generated offset attribute is exactly
the configured offset parameter's string form. -/
theorem claim_C2 (a : Args) (taxon : String) (po : String) :
    (a.priorDistribution = Dist.poisson →
      distributionSection a taxon =
        "\t\t<distr id=\"Poisson." ++ taxon ++
          "\" spec=\"beast.math.distributions.Poisson\" offset=\"1.0\">\n" ++
          parameterLines a taxon ++ "\t\t</distr>\n" ∧
      distributionSection { a with parametero := po } taxon = distributionSection a taxon) ∧
    (a.priorDistribution ≠ Dist.poisson →
      distributionSection a taxon =
        "\t\t<" ++ (beastDistributionsDict a.priorDistribution).getD "" ++ " id=\"" ++
          (beastDistributionsDict a.priorDistribution).getD "" ++ "." ++ taxon ++
          "\" name=\"distr\" offset=\"" ++ a.parametero ++ "\">\n" ++
          parameterLines a taxon ++ "\t\t</" ++
          (beastDistributionsDict a.priorDistribution).getD "" ++ ">\n") := by
  constructor
  · intro hp
    cases a with
    | mk i o s d p1 p2 po' r t e =>
      simp only at hp
      subst hp
      exact ⟨rfl, rfl⟩
  · intro hnp
    simp only [distributionSection, if_pos hnp]

/-- Concrete poisson configuration for `claim_C2`. -/
def cArgs2p : Args := { defaultArgs with priorDistribution := Dist.poisson, parametero := "7.5" }

/-- Concrete exponential configuration with a nonzero offset for `claim_C2`. -/
def cArgs2e : Args := { defaultArgs with parametero := "3.25" }

theorem claim_C2_witness :
    (distributionSection cArgs2p "A" =
      "\t\t<distr id=\"Poisson." ++ "A" ++
        "\" spec=\"beast.math.distributions.Poisson\" offset=\"1.0\">\n" ++
        parameterLines cArgs2p "A" ++ "\t\t</distr>\n" ∧
      distributionSection { cArgs2p with parametero := "9.9" } "A" =
        distributionSection cArgs2p "A") ∧
    distributionSection cArgs2e "A" =
      "\t\t<" ++ (beastDistributionsDict cArgs2e.priorDistribution).getD "" ++ " id=\"" ++
        (beastDistributionsDict cArgs2e.priorDistribution).getD "" ++ "." ++ "A" ++
        "\" name=\"distr\" offset=\"" ++ cArgs2e.parametero ++ "\">\n" ++
        parameterLines cArgs2e "A" ++ "\t\t</" ++
        (beastDistributionsDict cArgs2e.priorDistribution).getD "" ++ ">\n" :=
  ⟨(claim_C2 cArgs2p "A" "9.9").1 (by decide),
   (claim_C2 cArgs2e "A" "0.0").2 (by decide)⟩

/-! Claim C3. -/

/-- Concrete input for C3: a tree declaration with id `tree.t:run1`, a
backward-date section `A=1.0,B=2.0`, the compound-prior anchor line, and a
closing run tag. -/
def cInput3 : String :=
  "<tree id=\"tree.t:run1\" spec=\"beast.evolution.tree.Tree\">\n" ++
  "<trait spec=\"beast.evolution.tree.TraitSet\" traitname=\"date-backward\">A=1.0,B=2.0</trait>\n" ++
  "    <distribution id=\"prior\" spec=\"util.CompoundDistribution\">\n" ++
  "</run>"

/-- The compound-prior anchor line of `cInput3`. -/
def cAnchorLine3 : String := "    <distribution id=\"prior\" spec=\"util.CompoundDistribution\">"

/-- Modelled from the spec: the prior block the C3 example says must be
generated for a taxon `t` — an outer block with id `tip.t.prior`
referencing tree id `tree.t:run1`, a taxonset/taxon pair, and an
`Exponential` inner element with a `mean` parameter of `1.0` and
`offset="0.0"`.  (The two formatting oddities of the generated text are
reproduced: no space before `spec=` in the outer tag, and a leading space
inside the taxonset id.) -/
def expectedPriorBlockC3 (t : String) : String :=
  "\t    <distribution id=\"tip." ++ t ++ ".prior\"" ++
    "spec=\"beast.math.distributions.MRCAPrior\" tipsonly=\"true\" tree=\"@tree.t:run1\">\n" ++
    "\t\t<taxonset id=\" tip." ++ t ++ "\" spec=\"TaxonSet\">\n" ++
    "\t\t    <taxon id=\"" ++ t ++ "\" spec=\"Taxon\"/>\n" ++
    "\t\t</taxonset>\n" ++
    "\t\t<Exponential id=\"Exponential." ++ t ++ "\" name=\"distr\" offset=\"0.0\">\n" ++
    "\t\t    <parameter id=\"RealParameter.mean." ++ t ++
      "\" estimate=\"false\" name=\"mean\">1.0</parameter>\n" ++
    "\t\t</Exponential>\n" ++
    "\t    </distribution>\n"

set_option maxRecDepth 8000 in
/-- C3: on the concrete input `cInput3` with the default options
(exponential, parameter1 = 1.0, offset = 0.0), the extracted tree id is
`tree.t:run1`, the extracted taxa are `A` and `B` in that order, the
compound-prior anchor line's chunk gains exactly the two expected prior
blocks for `A` then `B`, and the whole run succeeds. -/
theorem claim_C3 :
    findTreeID cInput3.data = some "tree.t:run1" ∧
    findDateSection TimeDir.present cInput3.data = some ("A=1.0,B=2.0".data) ∧
    findAllTaxa ("A=1.0,B=2.0".data) = ["A", "B"] ∧
    processLine defaultArgs "tree.t:run1" ["A", "B"] cAnchorLine3 =
      cAnchorLine3 ++ "\n" ++ expectedPriorBlockC3 "A" ++ expectedPriorBlockC3 "B" ∧
    (run defaultArgs ⟨some cInput3, none⟩).err = none := by
  refine ⟨?_, ?_, ?_, ?_, ?_⟩ <;> decide

/-! Claim C4. -/

/-- C4: when a sequence-filter file is supplied (a run that has passed the
extension, input-read, tree-id and date-section stages), an unreadable
filter file is fatal; a readable filter file whose identifiers (one per
line) are all present in the extracted taxon set replaces the taxon list
with the filter list in the file's line order, the output being generated
from exactly that list; and a filter file with any unknown identifier is
fatal with the unknown-ids error and nothing written. -/
theorem claim_C4 (a : Args) (fs : FS) (xml tid : String) (sect : List Char)
    (hseq : a.sequences ≠ "")
    (hext : hasXmlExt a.inputFile = true)
    (hin : fs.input = some xml)
    (htid : findTreeID xml.data = some tid)
    (hsect : findDateSection a.timeDirection xml.data = some sect) :
    (fs.filter = none →
      (run a fs).written = "" ∧ (run a fs).err = some FatalErr.filterUnreadable) ∧
    (∀ fc : String, fs.filter = some fc →
      (((pySplitlines fc).all (fun s => (findAllTaxa sect).contains s)) = true →
        (run a fs).written = outputString a tid (pySplitlines fc) xml ∧
        (run a fs).err = none) ∧
      (((pySplitlines fc).all (fun s => (findAllTaxa sect).contains s)) = false →
        (run a fs).written = "" ∧ (run a fs).err = some FatalErr.filterUnknownIds)) := by
  unfold run
  rw [if_pos hext, hin]
  simp only [runInputStage]
  rw [htid]
  simp only [runTreeStage]
  rw [hsect]
  simp only [runWithTree, runWithSect]
  rw [if_neg hseq]
  refine ⟨fun hf => ?_, fun fc hf => ⟨fun hall => ?_, fun hall => ?_⟩⟩
  · rw [hf]
    exact ⟨rfl, rfl⟩
  · rw [hf]
    simp only [runFiltered]
    rw [hall, if_pos rfl]
    exact ⟨rfl, rfl⟩
  · rw [hf]
    simp only [runFiltered]
    rw [hall, if_neg (by simp)]
    exact ⟨rfl, rfl⟩

/-- Concrete input XML for the C4 witness. -/
def cXml4 : String :=
  "<tree id=\"T4\" spec=\"x\">\n<trait traitname=\"date-backward\">A=1.0,B=2.0</trait>"

/-- Concrete arguments with a filter file supplied, for the C4 witness. -/
def cArgs4 : Args := { defaultArgs with inputFile := "in.xml", sequences := "filter.txt" }

/-- File system with a filter that is a permutation of the taxa. -/
def cFS4good : FS := ⟨some cXml4, some "B\nA"⟩

/-- File system with a filter containing an unknown identifier. -/
def cFS4bad : FS := ⟨some cXml4, some "A\nC"⟩

/-- File system with an unreadable filter file. -/
def cFS4none : FS := ⟨some cXml4, none⟩

set_option maxRecDepth 8000 in
theorem claim_C4_witness :
    ((run cArgs4 cFS4none).written = "" ∧
      (run cArgs4 cFS4none).err = some FatalErr.filterUnreadable) ∧
    ((run cArgs4 cFS4good).written = outputString cArgs4 "T4" (pySplitlines "B\nA") cXml4 ∧
      (run cArgs4 cFS4good).err = none) ∧
    ((run cArgs4 cFS4bad).written = "" ∧
      (run cArgs4 cFS4bad).err = some FatalErr.filterUnknownIds) :=
  ⟨(claim_C4 cArgs4 cFS4none cXml4 "T4" ("A=1.0,B=2.0".data)
      (by decide) (by decide) rfl (by decide) (by decide)).1 rfl,
   ((claim_C4 cArgs4 cFS4good cXml4 "T4" ("A=1.0,B=2.0".data)
      (by decide) (by decide) rfl (by decide) (by decide)).2 "B\nA" rfl).1 (by decide),
   ((claim_C4 cArgs4 cFS4bad cXml4 "T4" ("A=1.0,B=2.0".data)
      (by decide) (by decide) rfl (by decide) (by decide)).2 "A\nC" rfl).2 (by decide)⟩

/-! Claim C5. -/

/-- C5: for every run whose input file is readable (and has the .xml
extension) but contains no tree-declaration marker with an identifier
attribute, the run fails with the tree-id-not-found fatal error, writes
zero bytes to the destination, never reaches the output-writing stage, and
the destination has at most been created empty by the output-stream
opening that argument parsing performed. -/
theorem claim_C5 (a : Args) (fs : FS) (xml : String)
    (hext : hasXmlExt a.inputFile = true)
    (hin : fs.input = some xml)
    (htid : findTreeID xml.data = none) :
    (run a fs).written = "" ∧
    (run a fs).err = some FatalErr.treeIdNotFound ∧
    (run a fs).trace = [Effect.openOutputForWrite, Effect.readInput,
      Effect.fatalExit FatalErr.treeIdNotFound] ∧
    Effect.writeOutput ∉ (run a fs).trace := by
  unfold run
  rw [if_pos hext, hin]
  simp only [runInputStage]
  rw [htid]
  simp only [runTreeStage]
  exact ⟨trivial, trivial, trivial, by decide⟩

/-- Concrete tree-less input for the C5 witness. -/
def cXml5 : String := "no tree declaration here\njust text\n<data id=\"d\"/>"

/-- Concrete arguments for the C5 witness. -/
def cArgs5 : Args := { defaultArgs with inputFile := "a.xml" }

theorem claim_C5_witness :
    (run cArgs5 ⟨some cXml5, none⟩).written = "" ∧
    (run cArgs5 ⟨some cXml5, none⟩).err = some FatalErr.treeIdNotFound ∧
    (run cArgs5 ⟨some cXml5, none⟩).trace = [Effect.openOutputForWrite, Effect.readInput,
      Effect.fatalExit FatalErr.treeIdNotFound] ∧
    Effect.writeOutput ∉ (run cArgs5 ⟨some cXml5, none⟩).trace :=
  claim_C5 cArgs5 ⟨some cXml5, none⟩ cXml5 (by decide) rfl (by decide)

/-! Claim C6 (corrected). -/

/-- Concrete run hitting the unreadable-input fatal branch. -/
def cArgs6 : Args := { defaultArgs with inputFile := "missing.xml" }

/-- File system on which `cArgs6` fails: no readable input. -/
def cFS6 : FS := ⟨none, none⟩

/-- C6 counterexample: the unreadable-input fatal condition is reached on a
concrete run, and its exit status is 0 (the script calls `sys.exit()` with
no argument), not a non-zero-equivalent exit as the claim states. -/
theorem claim_C6_counterexample :
    (run cArgs6 cFS6).err = some FatalErr.inputUnreadable ∧
    errExitCode FatalErr.inputUnreadable = 0 := by
  decide

set_option maxRecDepth 8000 in
/-- C6 (amended): every fatal condition prints a distinct human-readable
diagnostic message and terminates immediately, writing no output; but only
the bad-extension failure (an uncaught exception) terminates with a
non-zero exit status — every other fatal condition exits via a bare
`sys.exit()`, i.e. with exit status 0. -/
theorem claim_C6_amended :
    (∀ e1 e2 : FatalErr, errMessage e1 = errMessage e2 → e1 = e2) ∧
    errExitCode FatalErr.badExtension = 1 ∧
    (∀ e : FatalErr, e ≠ FatalErr.badExtension → errExitCode e = 0) ∧
    (∀ (a : Args) (fs : FS) (e : FatalErr), (run a fs).err = some e →
      (run a fs).written = "" ∧
      (run a fs).trace.getLast? = some (Effect.fatalExit e) ∧
      Effect.writeOutput ∉ (run a fs).trace) := by
  refine ⟨by decide, rfl, ?_, ?_⟩
  · intro e he
    cases e
    · exact absurd rfl he
    all_goals rfl
  · intro a fs e h
    rcases (run_cases a fs).2 with h0 | ⟨hw, e', he', hl, hnw⟩
    · rw [h0] at h
      cases h
    · rw [he'] at h
      cases h
      exact ⟨hw, hl, hnw⟩

theorem claim_C6_witness :
    FatalErr.treeIdNotFound = FatalErr.treeIdNotFound ∧
    errExitCode FatalErr.filterUnreadable = 0 ∧
    ((run cArgs6 cFS6).written = "" ∧
      (run cArgs6 cFS6).trace.getLast? = some (Effect.fatalExit FatalErr.inputUnreadable) ∧
      Effect.writeOutput ∉ (run cArgs6 cFS6).trace) :=
  ⟨claim_C6_amended.1 FatalErr.treeIdNotFound FatalErr.treeIdNotFound rfl,
   claim_C6_amended.2.2.1 FatalErr.filterUnreadable (by decide),
   claim_C6_amended.2.2.2 cArgs6 cFS6 FatalErr.inputUnreadable (by decide)⟩

/-! Claim C7. -/

/-- C7: every input line containing none of the three anchor substrings is
written byte-identically followed by an added newline, and an input none
of whose lines contains any anchor is copied through whole (the output is
the input plus one trailing newline) with no error possible. -/
theorem claim_C7 (a : Args) (tid : String) (txl : List String) (xml : String) :
    (∀ line : String,
      containsSub line priorAnchor = false →
      containsSub line loggerAnchor = false →
      containsSub line runAnchor = false →
      writtenChunk a tid txl line = line ++ "\n") ∧
    ((∀ l ∈ splitNl xml.data,
        containsSub (String.mk l) priorAnchor = false ∧
        containsSub (String.mk l) loggerAnchor = false ∧
        containsSub (String.mk l) runAnchor = false) →
      outputString a tid txl xml = xml ++ "\n") := by
  constructor
  · intro line h1 h2 h3
    simp [writtenChunk, processLine, h1, h2, h3]
  · intro H
    have hmap : (splitNl xml.data).map (fun l => writtenChunk a tid txl (String.mk l)) =
        (splitNl xml.data).map (fun l => String.mk l ++ "\n") := by
      apply List.map_congr_left
      intro l hl
      obtain ⟨h1, h2, h3⟩ := H l hl
      simp [writtenChunk, processLine, h1, h2, h3]
    apply strExt
    rw [outputString, hmap, data_concat_chunks, joinNl_splitNl, strData_append]

set_option maxRecDepth 8000 in
theorem claim_C7_witness :
    writtenChunk defaultArgs "T" ["A"] "  <data id=\"alignment\">" =
      "  <data id=\"alignment\">" ++ "\n" ∧
    outputString defaultArgs "T" ["A"] "abc\ndef" = "abc\ndef" ++ "\n" :=
  ⟨(claim_C7 defaultArgs "T" ["A"] "abc\ndef").1 "  <data id=\"alignment\">"
      (by decide) (by decide) (by decide),
   (claim_C7 defaultArgs "T" ["A"] "abc\ndef").2 (by decide)⟩

/-! Claim C8. -/

/-- C8: two runs on the same file system whose arguments differ only in
the realspace flag or the estimate flag produce identical results — in
particular identical bytes written to the output XML file; these flags
reach only the status messages the script prints to standard output
(source lines 223-227), which are outside the output file. -/
theorem claim_C8 (a : Args) (fs : FS) (b e : Bool) :
    run { a with meanInRealSpace := b, estimateParameters := e } fs = run a fs := by
  cases a
  rfl

/-! Claim C9 (code bug). -/

set_option maxRecDepth 8000 in
/-- C9: the generated operator fragment does fix `windowSize="1"` and
`weight="1.0"` and does reference the tree id, but it references taxonset
id `tip.A` while the prior fragment declares the taxonset with id
` tip.A` — a leading space inside the id (source line 286), so the
operator does not reference the id the prior fragment declares (the
script's own docstring states the convention `tip.taxonid`). -/
theorem claim_C9_bug :
    containsSub (priorFragment defaultArgs "tree.t:run1" "A")
      "<taxonset id=\" tip.A\" spec=\"TaxonSet\">" = true ∧
    containsSub (priorFragment defaultArgs "tree.t:run1" "A")
      "taxonset id=\"tip.A\"" = false ∧
    operatorFragment "tree.t:run1" "A" =
      "<operator id=\"TipDatesRandomWalker.A\"\nwindowSize=\"1\"\n" ++
        "spec=\"TipDatesRandomWalker\"\ntaxonset=\"@tip.A\"\ntree=\"@tree.t:run1\"\n" ++
        "weight=\"1.0\"/>\n" ∧
    (" tip.A" : String) ≠ "tip.A" := by
  decide

/-! Claim C10. -/

/-- C10: on every invocation whose arguments parse, the very first
file-system effect is the opening (creation or truncation) of the
destination output file, performed by argument parsing itself; in
particular a run that fails immediately on a non-.xml extension still has
the destination opened for writing before the fatal exit. -/
theorem claim_C10 (a : Args) (fs : FS) :
    (run a fs).trace.head? = some Effect.openOutputForWrite ∧
    (hasXmlExt a.inputFile = false →
      (run a fs).trace =
        [Effect.openOutputForWrite, Effect.fatalExit FatalErr.badExtension] ∧
      (run a fs).err = some FatalErr.badExtension) := by
  refine ⟨(run_cases a fs).1, fun hx => ?_⟩
  unfold run
  rw [if_neg (by simp [hx])]
  exact ⟨rfl, rfl⟩

/-- Concrete arguments with a non-.xml input path. -/
def cArgs10 : Args := { defaultArgs with inputFile := "input.txt" }

theorem claim_C10_witness :
    (run cArgs10 ⟨none, none⟩).trace.head? = some Effect.openOutputForWrite ∧
    ((run cArgs10 ⟨none, none⟩).trace =
        [Effect.openOutputForWrite, Effect.fatalExit FatalErr.badExtension] ∧
      (run cArgs10 ⟨none, none⟩).err = some FatalErr.badExtension) :=
  ⟨(claim_C10 cArgs10 ⟨none, none⟩).1,
   (claim_C10 cArgs10 ⟨none, none⟩).2 (by decide)⟩

end TipDatePriors
